import Mathlib

/-!
Verification development for the University_Chatbot repository.

A shallow embedding, in Lean, of the parts of `data_loader2.py` and
`appv3streamlit.py` that the specification claims talk about: time-cell
cleaning, the entity-vocabulary preprocessing (title stripping and the
no-title dictionary), the fuzzy-match wrapper, the conversation context,
the history back-fill block of `extract_entities`, and the intent dispatch
of `generate_response`.  Python strings are modelled as Lean `String`
(a list of unicode codepoints, matching Python indexing/slicing), Python
`None`-able values as `Option`, and `pandas` data frames as lists of rows.
-/

namespace UniChat

/-! Python string primitives.  `str.strip` removes whitespace from both
ends.  `str.lower` is implemented here for the ASCII letters plus the
uppercase Turkish letters that occur in this codebase; the dotted capital
I (whose Python lowering is multi-codepoint) does not occur in any string
the embedded code manipulates. -/

def pyIsSpace (c : Char) : Bool :=
  c = ' ' ∨ c = '\t' ∨ c = '\n' ∨ c = '\x0d' ∨ c = '\x0b' ∨ c = '\x0c'

def stripChars (l : List Char) : List Char :=
  ((l.dropWhile pyIsSpace).reverse.dropWhile pyIsSpace).reverse

/-- Model of Python `str.strip()`. -/
def pyStrip (s : String) : String := ⟨stripChars s.data⟩

def pyLowerChar (c : Char) : Char :=
  if 'A' ≤ c ∧ c ≤ 'Z' then Char.ofNat (c.toNat + 32)
  else if c = 'Ö' then 'ö'
  else if c = 'Ç' then 'ç'
  else if c = 'Ğ' then 'ğ'
  else if c = 'Ü' then 'ü'
  else if c = 'Ş' then 'ş'
  else c

/-- Model of Python `str.lower()` (on the character set used by the repo). -/
def pyLower (s : String) : String := ⟨s.data.map pyLowerChar⟩

/-- Embeds `_normalize_text`: `text.lower().strip()`. -/
def normalizeText (s : String) : String := pyStrip (pyLower s)

def pyInChars (needle : List Char) : List Char → Bool
  | [] => needle.isEmpty
  | c :: rest => (c :: rest).take needle.length = needle ∨ pyInChars needle rest

/-- Model of Python substring containment `sub in s`. -/
def pyInStr (sub s : String) : Bool := pyInChars sub.data s.data

/-! Embedding of `data_loader2.py`: the `clean_time` / `to_time_obj`
pipeline applied to every cell of the `Time` and `Exam Time` columns.
After `df.fillna('')` every cell reaching `clean_time` is a string (a
non-string cell is mapped to `''` by `clean_time` itself, i.e. with the
same result as the empty string). -/

/-- Python `x.replace('.', ':')`. -/
def replaceDots (s : String) : String :=
  ⟨s.data.map (fun c => if c = '.' then ':' else c)⟩

/-- Embeds `clean_time`: when the stripped cell is nonempty, replace dots
with colons, and when the result contains `-` keep the (stripped) part
before the first `-`; Python `x.split('-')[0]` is exactly the prefix of
`x` before the first `-`. -/
def cleanTime (x : String) : String :=
  if pyStrip x ≠ "" then
    let y := replaceDots x
    if '-' ∈ y.data then pyStrip ⟨y.data.takeWhile (fun c => c ≠ '-')⟩ else y
  else ""

/-- Wall-clock time, the embedding of a Python `datetime.time` value. -/
structure Time where
  hour : Nat
  minute : Nat
  second : Nat
deriving DecidableEq, Repr

/-- Python `s.split(':')`, at the codepoint level. -/
def splitOnColon : List Char → List (List Char)
  | [] => [[]]
  | c :: rest =>
    let r := splitOnColon rest
    if c = ':' then [] :: r
    else
      match r with
      | [] => [[c]]
      | g :: gs => (c :: g) :: gs

def digitsToNat? (l : List Char) : Option Nat :=
  if l ≠ [] ∧ l.all Char.isDigit then
    some (l.foldl (fun n c => 10 * n + (c.toNat - 48)) 0)
  else none

/-- One strptime numeric field: at most two digits, as `%H`/`%M`/`%S` read. -/
def parseField2? (l : List Char) : Option Nat :=
  if l.length ≤ 2 then digitsToNat? l else none

/-- Strict `%H:%M:%S` parse, the first format `to_time_obj` tries. -/
def parseHMS (s : String) : Option Time :=
  match splitOnColon s.data with
  | [h, m, sec] =>
    match parseField2? h, parseField2? m, parseField2? sec with
    | some hv, some mv, some sv =>
      if hv ≤ 23 ∧ mv ≤ 59 ∧ sv ≤ 59 then some ⟨hv, mv, sv⟩ else none
    | _, _, _ => none
  | _ => none

/-- Strict `%H:%M` parse, the fallback format of `to_time_obj`. -/
def parseHM (s : String) : Option Time :=
  match splitOnColon s.data with
  | [h, m] =>
    match parseField2? h, parseField2? m with
    | some hv, some mv =>
      if hv ≤ 23 ∧ mv ≤ 59 then some ⟨hv, mv, 0⟩ else none
    | _, _ => none
  | _ => none

/-- Embeds `to_time_obj`: try `%H:%M:%S`, fall back to `%H:%M`, and map
every unparseable value to `None` (the Python code turns parse failures
into `None` via `errors='coerce'` plus a catch-all `except`). -/
def toTimeObj (s : String) : Option Time :=
  if s ≠ "" then
    match parseHMS s with
    | some t => some t
    | none => parseHM s
  else none

/-! Embedding of the vocabulary preprocessing of `appv3streamlit.py`. -/

/-- The fixed prefix list of `_preprocess_teachers_no_titles`, in source order. -/
def titlePrefixes : List String := ["Doç. Dr.", "Öğr. Gör. Dr.", "Öğr. Gör.", "Prof. Dr.", "Dr."]

/-- One iteration of the title-stripping loop: Python
`if no_title.startswith(prefix): no_title = no_title[len(prefix):].strip()`.
`startswith` is prefix equality on codepoints, slicing drops codepoints. -/
def stripStep1 (acc p : String) : String :=
  if acc.data.take p.data.length = p.data then pyStrip ⟨acc.data.drop p.data.length⟩ else acc

/-- Embeds the stripping loop of `_preprocess_teachers_no_titles`.  The
Python loop has no `break`: every prefix in the list is tested, in order,
against the current remainder. -/
def stripTitles (teacher : String) : String := titlePrefixes.foldl stripStep1 teacher

/-- The key under which a teacher is stored in the no-title dictionary. -/
def dKeyOf (t : String) : String := normalizeText (stripTitles t)

/-- Model of `pandas` `Series.unique()`: deduplicate, keeping the first
occurrence of each value, preserving order. -/
def pyUniqueG {α : Type} [DecidableEq α] (l : List α) : List α :=
  l.foldl (fun acc x => if x ∈ acc then acc else acc ++ [x]) []

/-- Model of Python dict assignment `m[k] = v`: replace the binding of `k`
in place if one exists, else append the new binding. -/
def dictInsert : List (String × String) → String → String → List (String × String)
  | [], k, v => [(k, v)]
  | kv :: rest, k, v => if kv.1 = k then (k, v) :: rest else kv :: dictInsert rest k v

/-- Model of Python dict lookup `m[k]` (as an `Option`). -/
def dictGet? (m : List (String × String)) (k : String) : Option String :=
  (m.find? (fun kv => kv.1 = k)).map (fun kv => kv.2)

/-- One iteration of the dictionary-building loop of
`_preprocess_teachers_no_titles` (the `'-'` sentinel is skipped; non-string
cells, excluded by `isinstance`, are outside this model of string lists). -/
def noTitleStep (m : List (String × String)) (t : String) : List (String × String) :=
  if t = "-" then m else dictInsert m (dKeyOf t) t

/-- Embeds `_preprocess_teachers_no_titles`, applied to the `Teacher`
column (`unique()` first, then the loop). -/
def preprocessTeachersNoTitles (teachers : List String) : List (String × String) :=
  (pyUniqueG teachers).foldl noTitleStep []

/-! Embedding of `fuzzy_match_entity`.  The similarity scorer
(`fuzz.token_sort_ratio` composed with fuzzywuzzy's default processor)
lives in an external library; it is abstracted as a `scorer` argument on
the 0-100 scale.  `process.extractOne` returns the choice with the maximal
score; like Python's `max`, the earliest maximal choice wins. -/

def extractOne (scorer : String → String → Nat) (q : String) : List String → Option (String × Nat)
  | [] => none
  | k :: ks =>
    match extractOne scorer q ks with
    | none => some (k, scorer q k)
    | some (bk, bs) => if scorer q k ≥ bs then some (k, scorer q k) else some (bk, bs)

/-- Embeds `fuzzy_match_entity`: empty text short-circuits to `None`,
otherwise the normalized text is scored against the candidate keys and the
best key is accepted only at score ≥ threshold (default 70), returning the
canonical value `candidates[match]`. -/
def fuzzyMatchEntity (scorer : String → String → Nat) (text : String)
    (candidates : List (String × String)) (threshold : Nat := 70) : Option String :=
  if text = "" then none
  else
    match extractOne scorer (normalizeText text) (candidates.map (fun kv => kv.1)) with
    | none => none
    | some (k, s) => if s ≥ threshold then dictGet? candidates k else none

/-! Embedding of the conversation context. -/

/-- The entity record produced by `extract_entities`: every key is always
present, each either `None` or a string value. -/
structure Entities where
  course : Option String
  teacher : Option String
  exam_type : Option String
  day : Option String
  time : Option String
  building : Option String
deriving DecidableEq, Repr

def emptyEntities : Entities := ⟨none, none, none, none, none, none⟩

structure Interaction where
  query : String
  intent : String
  entities : Entities
  timestamp : Nat
deriving DecidableEq, Repr

structure Context where
  history : List Interaction
  last_course : Option String
  last_teacher : Option String
  last_day : Option String
deriving DecidableEq, Repr

/-- Python truthiness of an optional string: `None` and `''` are falsy. -/
def truthyO : Option String → Bool
  | none => false
  | some s => s ≠ ""

/-- Python `a or b` on optional strings: `a` if truthy, else `b`. -/
def pyOr (a b : Option String) : Option String := if truthyO a then a else b

/-- Embeds `_update_context` (`datetime.now()` is passed in as `now`).

Note on `entities.get(key, self.context[last_key])`: in this program
`entities` is always the dict built by `extract_entities`, which contains
every key (possibly mapped to `None`), so `dict.get` never takes its
default and each `last_*` field is overwritten with the current turn's
value — including `None`. -/
def updateContext (ctx : Context) (query intent : String) (entities : Entities) (now : Nat) : Context :=
  let interaction : Interaction := ⟨query, intent, entities, now⟩
  let h := ctx.history ++ [interaction]
  { history := if h.length > 5 then h.drop (h.length - 5) else h
    last_course := entities.course
    last_teacher := entities.teacher
    last_day := entities.day }

/-! Embedding of the history back-fill block of `extract_entities`
(the follow-up resolution step). -/

/-- Embeds the loop `for interaction in reversed(self.context['history'])`:
the list argument is the already-reversed history (newest first).  In the
source, a successful teacher back-fill or course back-fill executes
`break`, which ends the whole loop. -/
def followupScan (e : Entities) : List Interaction → Entities
  | [] => e
  | i :: rest =>
    if ¬ truthyO e.teacher ∧ truthyO i.entities.teacher then
      { e with teacher := i.entities.teacher }
    else if ¬ truthyO e.course ∧ truthyO i.entities.course then
      { e with course := i.entities.course }
    else followupScan e rest

/-- Embeds lines 182-189 of `extract_entities`: the scan runs when the
utterance has a follow-up marker (`is_followup`, computed upstream from
pronoun/`about` substring tests) or when neither course nor teacher is
resolved; `history` is stored oldest-first and the loop iterates it
reversed. -/
def followupStage (isFollowup : Bool) (e : Entities) (history : List Interaction) : Entities :=
  if isFollowup ∨ ¬ (truthyO e.course ∨ truthyO e.teacher) then followupScan e history.reverse
  else e

/-! Embedding of the schedule data frame and of `generate_response`. -/

/-- Calendar date, the embedding of a parsed `Exam Date` cell. -/
structure Date where
  day : Nat
  month : Nat
  year : Nat
deriving DecidableEq, Repr

/-- One row of the loaded schedule data frame.  After `load_schedule_data`,
`Time`/`Exam Time` are `datetime.time` or `None` and `Exam Date` is a
timestamp or `NaT`; the string columns were `fillna('')`-ed. -/
structure Row where
  course : String
  teacher : String
  day : String
  time : Option Time
  room : String
  examType : String
  examDate : Option Date
  examTime : Option Time
deriving DecidableEq, Repr

def pad2 (n : Nat) : String := if n < 10 then "0" ++ toString n else toString n

def pad4 (n : Nat) : String :=
  if n < 10 then "000" ++ toString n
  else if n < 100 then "00" ++ toString n
  else if n < 1000 then "0" ++ toString n
  else toString n

/-- Embeds `_format_time`: a `datetime.time` prints as `%H:%M`; a falsy
value (`None`) prints as `"time not set"`. -/
def formatTime : Option Time → String
  | some t => pad2 t.hour ++ ":" ++ pad2 t.minute
  | none => "time not set"

/-- Python `date.strftime("%d.%m.%Y")`. -/
def formatDate (d : Date) : String :=
  pad2 d.day ++ "." ++ pad2 d.month ++ "." ++ pad4 d.year

/-- The chatbot state consulted by the dispatch: the loaded data frame and
the normalized course vocabulary (`self.normalized_courses`). -/
structure Bot where
  df : List Row
  normalizedCourses : List (String × String)

/-- Line builder of the `class_schedule` branch (the loop body, including
its `pd.notna(row["Time"]) and row["Day"]` guard). -/
def classLine (acc : String) (r : Row) : String :=
  if r.time.isSome ∧ r.day ≠ "" then
    acc ++ "- " ++ r.day ++ " at " ++ formatTime r.time ++ " in room " ++ r.room ++ "\n"
  else acc

def classScheduleResp (rows : List Row) (e : Entities) (ctx : Context) : String :=
  let course := pyOr e.course ctx.last_course
  let day := pyOr e.day ctx.last_day
  if truthyO course then
    let c := course.getD ""
    let df := rows.filter (fun r => r.course = c ∧ r.examType = "Lecture")
    let df := if truthyO day then df.filter (fun r => r.day = day.getD "") else df
    if ¬ df.isEmpty then
      pyStrip (df.foldl classLine ("📚 Schedule for " ++ c ++ ":\n"))
    else "No schedule found for " ++ c ++ "."
  else "Which course\x27s schedule would you like to know?"

/-- Line builder of the `exam_info` branch: a row contributes a line only
when `pd.notna(row["Exam Date"])`. -/
def examLine (acc : String) (r : Row) : String :=
  match r.examDate with
  | some d =>
    acc ++ "- " ++ r.examType ++ " on " ++ formatDate d ++ " at " ++ formatTime r.examTime ++ "\n"
  | none => acc

/-- The row set of the `exam_info` branch: filter to the course and the
exam categories, then narrow by the `exam_type` entity when it is truthy
(case-insensitive comparison, as `str.lower() == exam_type.lower()`). -/
def examNarrow (rows : List Row) (c : String) (et : Option String) : List Row :=
  let df := rows.filter (fun r =>
    r.course = c ∧ (r.examType = "Midterm" ∨ r.examType = "Final" ∨ r.examType = "Makeup"))
  if truthyO et then df.filter (fun r => pyLower r.examType = pyLower (et.getD "")) else df

def examInfoResp (rows : List Row) (e : Entities) (ctx : Context) : String :=
  let course := pyOr e.course ctx.last_course
  if truthyO course then
    let c := course.getD ""
    let df := examNarrow rows c e.exam_type
    if ¬ df.isEmpty then
      pyStrip (df.foldl examLine ("📝 Exam info for " ++ c ++ ":\n"))
    else "No exam info found for " ++ c ++ "."
  else "Which course\x27s exam info would you like?"

def teacherInfoResp (rows : List Row) (e : Entities) (ctx : Context) : String :=
  let teacher := pyOr e.teacher ctx.last_teacher
  if truthyO teacher then
    let t := teacher.getD ""
    let df := rows.filter (fun r => r.teacher = t ∧ r.examType = "Lecture")
    if ¬ df.isEmpty then
      "👨‍🏫 " ++ t ++ " teaches: " ++ String.intercalate ", " (pyUniqueG (df.map (fun r => r.course)))
    else "No courses found for " ++ t ++ "."
  else "Which teacher would you like info about?"

/-- Line builder of the `room_info` branch (guard `row["Room"] and
pd.notna(row["Time"])`). -/
def roomLine (acc : String) (r : Row) : String :=
  if r.room ≠ "" ∧ r.time.isSome then
    acc ++ "- " ++ r.day ++ " at " ++ formatTime r.time ++ " in room " ++ r.room ++ "\n"
  else acc

def roomInfoResp (rows : List Row) (e : Entities) (ctx : Context) : String :=
  let course := pyOr e.course ctx.last_course
  let day := pyOr e.day ctx.last_day
  if truthyO course then
    let c := course.getD ""
    let df := rows.filter (fun r => r.course = c ∧ r.examType = "Lecture")
    let df := if truthyO day then df.filter (fun r => r.day = day.getD "") else df
    if ¬ df.isEmpty then
      pyStrip (df.foldl roomLine ("🏫 Rooms for " ++ c ++ ":\n"))
    else "No room info found for " ++ c ++ "."
  else "Which course\x27s room info would you like?"

/-- Line builder of the `daily_schedule` branch (guard `pd.notna(row["Time"])`). -/
def dailyLine (acc : String) (r : Row) : String :=
  if r.time.isSome then
    acc ++ "- " ++ r.course ++ " at " ++ formatTime r.time ++ " in room " ++ r.room
      ++ " (Teacher: " ++ r.teacher ++ ")\n"
  else acc

def dailyScheduleResp (rows : List Row) (e : Entities) (ctx : Context) : String :=
  let day := pyOr e.day ctx.last_day
  if truthyO day then
    let d := day.getD ""
    let df := rows.filter (fun r => r.day = d ∧ r.examType = "Lecture")
    if ¬ df.isEmpty then
      pyStrip (df.foldl dailyLine ("📅 Schedule for " ++ d ++ ":\n"))
    else "No classes found for " ++ d ++ "."
  else "Which day\x27s schedule would you like?"

def lectureRows (rows : List Row) : List Row :=
  rows.filter (fun r => r.examType = "Lecture")

/-- The Lecture rows at a given (day, non-absent time) slot — the inner
`time_df` of the `schedule_conflict` branch. -/
def lectureGroup (rows : List Row) (d : String) (t : Time) : List Row :=
  rows.filter (fun r => r.examType = "Lecture" ∧ r.day = d ∧ r.time = some t)

/-- Embeds the conflict scan of the `schedule_conflict` branch: iterate
the distinct days of the Lecture rows, then the distinct times of that
day (skipping `NaT`), and record `(day, time, course list)` whenever the
(day, time) slot holds more than one row. -/
def conflictsOf (rows : List Row) : List (String × Time × List String) :=
  let df := lectureRows rows
  (pyUniqueG (df.map (fun r => r.day))).flatMap (fun day =>
    let dayDf := df.filter (fun r => r.day = day)
    (pyUniqueG (dayDf.map (fun r => r.time))).filterMap (fun t =>
      match t with
      | some tv =>
        let timeDf := dayDf.filter (fun r => r.time = some tv)
        if timeDf.length > 1 then some (day, tv, timeDf.map (fun r => r.course)) else none
      | none => none))

def conflictLine (acc : String) (dtc : String × Time × List String) : String :=
  acc ++ "- " ++ dtc.1 ++ " at " ++ formatTime (some dtc.2.1) ++ ": "
    ++ String.intercalate ", " dtc.2.2 ++ "\n"

def scheduleConflictResp (rows : List Row) : String :=
  let conflicts := conflictsOf rows
  if ¬ conflicts.isEmpty then
    pyStrip (conflicts.foldl conflictLine "⚠️ Schedule conflicts:\n")
  else "No schedule conflicts found."

/-- Line builder of the `teacher_schedule` branch (guard
`pd.notna(row["Time"]) and row["Day"]`). -/
def teacherSchedLine (acc : String) (r : Row) : String :=
  if r.time.isSome ∧ r.day ≠ "" then
    acc ++ "- " ++ r.course ++ " on " ++ r.day ++ " at " ++ formatTime r.time
      ++ " in room " ++ r.room ++ "\n"
  else acc

def teacherScheduleResp (rows : List Row) (e : Entities) (ctx : Context) : String :=
  let teacher := pyOr e.teacher ctx.last_teacher
  if truthyO teacher then
    let t := teacher.getD ""
    let df := rows.filter (fun r => r.teacher = t ∧ r.examType = "Lecture")
    if ¬ df.isEmpty then
      pyStrip (df.foldl teacherSchedLine ("👨‍🏫 " ++ t ++ "\x27s teaching schedule:\n"))
    else "No schedule found for " ++ t ++ "."
  else "Which teacher\x27s schedule would you like to know about?"

def courseAvailabilityResp (courses : List (String × String)) (e : Entities) (ctx : Context) : String :=
  let course := pyOr e.course ctx.last_course
  if truthyO course then
    let c := course.getD ""
    if c ∈ courses.map (fun kv => kv.2) then "✅ " ++ c ++ " is available this semester."
    else "❌ " ++ c ++ " is not available this semester."
  else "Which course are you checking?"

def sectionInfoResp (courses : List (String × String)) (e : Entities) (ctx : Context) : String :=
  let course := pyOr e.course ctx.last_course
  if truthyO course then
    let c := course.getD ""
    let secs := (courses.map (fun kv => kv.2)).filter (fun v => pyInStr c v)
    if ¬ secs.isEmpty then "📚 Available sections: " ++ String.intercalate ", " secs
    else "No sections found for " ++ c ++ "."
  else "Which course\x27s sections would you like?"

/-- The intent switch of `generate_response`, branch by branch in source
order.  `pick` abstracts `random.choice` over the literal candidate lists. -/
def dispatch (pick : List String → String) (bot : Bot) (intent : String)
    (e : Entities) (ctx : Context) : String :=
  if intent = "greeting" then
    pick ["Merhaba! 📚 How can I assist you today?", "Hi! Ready to help with your schedule. 😊"]
  else if intent = "goodbye" then pick ["Görüşürüz! 👋", "Bye! Take care! 😊"]
  else if intent = "thanks" then pick ["Rica ederim! 😊", "You\x27re welcome!"]
  else if intent = "class_schedule" then classScheduleResp bot.df e ctx
  else if intent = "exam_info" then examInfoResp bot.df e ctx
  else if intent = "teacher_info" then teacherInfoResp bot.df e ctx
  else if intent = "room_info" then roomInfoResp bot.df e ctx
  else if intent = "daily_schedule" then dailyScheduleResp bot.df e ctx
  else if intent = "schedule_conflict" then scheduleConflictResp bot.df
  else if intent = "teacher_schedule" then teacherScheduleResp bot.df e ctx
  else if intent = "course_availability" then courseAvailabilityResp bot.normalizedCourses e ctx
  else if intent = "section_info" then sectionInfoResp bot.normalizedCourses e ctx
  else if intent = "academic_calendar" then
    "📅 Academic calendar: Please check the university website for exact dates."
  else if intent = "smalltalk_weather" then
    pick ["Hava durumu? ☀️ Check your window or a weather app!", "Weather? I’m just predict sunny vibes! 😎"]
  else if intent = "smalltalk_name" then
    "I\x27m Unibot, your friendly university schedule assistant! 😊"
  else "Sorry, I didn’t understand. Could you clarify?"

/-- Embeds `generate_response`.  `predict_intent` is the external ML
classifier, abstracted as the `intent` argument; `_update_context` is
called first (mutating `self.context`), and every branch then reads the
updated context.  Returns the response together with the new context. -/
def generateResponse (pick : List String → String) (bot : Bot) (intent : String)
    (text : String) (e : Entities) (ctx : Context) (now : Nat) : String × Context :=
  let ctx2 := updateContext ctx text intent e now
  (dispatch pick bot intent e ctx2, ctx2)

/-! General lemmas about the embedding. -/

lemma strEq_of_data {s t : String} (h : s.data = t.data) : s = t := by
  cases s; cases t; exact congrArg String.mk h

lemma strData_append (s t : String) : (s ++ t).data = s.data ++ t.data := rfl

lemma mem_foldl_unique {α : Type} [DecidableEq α] (l : List α) (acc : List α) (x : α) :
    x ∈ l.foldl (fun a y => if y ∈ a then a else a ++ [y]) acc ↔ x ∈ acc ∨ x ∈ l := by
  induction l generalizing acc with
  | nil => simp
  | cons a l ih =>
    simp only [List.foldl_cons]
    by_cases h : a ∈ acc
    · rw [ih]
      simp only [if_pos h, List.mem_cons]
      constructor
      · rintro (hx | hx)
        · exact Or.inl hx
        · exact Or.inr (Or.inr hx)
      · rintro (hx | rfl | hx)
        · exact Or.inl hx
        · exact Or.inl h
        · exact Or.inr hx
    · rw [if_neg h, ih]
      simp only [List.mem_append, List.mem_singleton, List.mem_cons]
      tauto

lemma mem_pyUniqueG {α : Type} [DecidableEq α] {l : List α} {x : α} :
    x ∈ pyUniqueG l ↔ x ∈ l := by
  unfold pyUniqueG
  rw [mem_foldl_unique]
  simp

lemma dictGet?_insert (m : List (String × String)) (k v k' : String) :
    dictGet? (dictInsert m k v) k' = if k' = k then some v else dictGet? m k' := by
  induction m with
  | nil =>
    by_cases h : k' = k
    · simp [dictInsert, dictGet?, List.find?, h]
    · have h' : ¬ (k = k') := fun he => h he.symm
      simp [dictInsert, dictGet?, List.find?, h, h']
  | cons kv rest ih =>
    by_cases h1 : kv.1 = k
    · by_cases h2 : k' = k
      · simp [dictInsert, dictGet?, List.find?, h1, h2]
      · have h' : ¬ (k = k') := fun he => h2 he.symm
        simp [dictInsert, dictGet?, List.find?, h1, h2, h']
    · by_cases h2 : kv.1 = k'
      · have hk : ¬ k' = k := fun he => h1 (by rw [h2, he])
        simp [dictInsert, dictGet?, List.find?, h1, h2, hk]
      · simp only [dictInsert, if_neg h1]
        have expand : dictGet? (kv :: dictInsert rest k v) k'
            = dictGet? (dictInsert rest k v) k' := by
          simp [dictGet?, List.find?, h2]
        have expand2 : dictGet? (kv :: rest) k' = dictGet? rest k' := by
          simp [dictGet?, List.find?, h2]
        rw [expand, ih, expand2]

lemma stripChars_wrap (a b : Char) (l : List Char)
    (ha : pyIsSpace a = false) (hb : pyIsSpace b = false) :
    stripChars (a :: (l ++ [b, '\n'])) = a :: (l ++ [b]) := by
  unfold stripChars
  rw [List.dropWhile_cons, if_neg (by simp [ha])]
  have h1 : (a :: (l ++ [b, '\n'])).reverse = '\n' :: (b :: (l.reverse ++ [a])) := by
    simp
  rw [h1, List.dropWhile_cons, if_pos (by decide), List.dropWhile_cons, if_neg (by simp [hb])]
  simp

lemma pyStrip_wrap (s : String) (a b : Char) (l : List Char) (hs : s.data = a :: (l ++ [b, '\n']))
    (ha : pyIsSpace a = false) (hb : pyIsSpace b = false) :
    pyStrip s = ⟨a :: (l ++ [b])⟩ := by
  unfold pyStrip
  rw [hs, stripChars_wrap a b l ha hb]

lemma foldl_examLine_none (l : List Row) (a : String)
    (h : ∀ r ∈ l, r.examDate = none) : l.foldl examLine a = a := by
  induction l generalizing a with
  | nil => rfl
  | cons r rest ih =>
    have hr : examLine a r = a := by
      have := h r (by simp)
      simp [examLine, this]
    simp only [List.foldl_cons, hr]
    exact ih a (fun x hx => h x (by simp [hx]))

lemma generateResponse_fst (pick : List String → String) (bot : Bot) (intent text : String)
    (e : Entities) (ctx : Context) (now : Nat) :
    (generateResponse pick bot intent text e ctx now).1
      = dispatch pick bot intent e (updateContext ctx text intent e now) := rfl

lemma updateContext_last_course (ctx : Context) (q i : String) (e : Entities) (now : Nat) :
    (updateContext ctx q i e now).last_course = e.course := rfl

lemma dispatch_class_schedule (pick : List String → String) (bot : Bot) (e : Entities) (ctx : Context) :
    dispatch pick bot "class_schedule" e ctx = classScheduleResp bot.df e ctx := rfl

lemma dispatch_exam_info (pick : List String → String) (bot : Bot) (e : Entities) (ctx : Context) :
    dispatch pick bot "exam_info" e ctx = examInfoResp bot.df e ctx := rfl

lemma dispatch_schedule_conflict (pick : List String → String) (bot : Bot) (e : Entities) (ctx : Context) :
    dispatch pick bot "schedule_conflict" e ctx = scheduleConflictResp bot.df := rfl

lemma followupScan_single (e : Entities) (l : List Interaction) :
    (followupScan e l).course = e.course ∨ (followupScan e l).teacher = e.teacher := by
  induction l with
  | nil => left; rfl
  | cons i rest ih =>
    unfold followupScan
    by_cases h1 : ¬ truthyO e.teacher ∧ truthyO i.entities.teacher
    · rw [if_pos h1]; left; rfl
    · rw [if_neg h1]
      by_cases h2 : ¬ truthyO e.course ∧ truthyO i.entities.course
      · rw [if_pos h2]; right; rfl
      · rw [if_neg h2]; exact ih

lemma extractOne_max (scorer : String → String → Nat) (q : String) (ks : List String) (hk : ks ≠ []) :
    ∃ bk bs, extractOne scorer q ks = some (bk, bs) ∧ bk ∈ ks ∧ scorer q bk = bs
      ∧ ∀ k ∈ ks, scorer q k ≤ bs := by
  induction ks with
  | nil => exact absurd rfl hk
  | cons k rest ih =>
    cases rest with
    | nil =>
      exact ⟨k, scorer q k, by simp [extractOne], by simp, rfl, by simp⟩
    | cons k2 ks2 =>
      obtain ⟨bk, bs, heq, hmem, hscore, hmax⟩ := ih (by simp)
      have hstep : extractOne scorer q (k :: k2 :: ks2)
          = match extractOne scorer q (k2 :: ks2) with
            | none => some (k, scorer q k)
            | some (bk, bs) => if scorer q k ≥ bs then some (k, scorer q k) else some (bk, bs) := rfl
      by_cases h : scorer q k ≥ bs
      · refine ⟨k, scorer q k, ?_, by simp, rfl, ?_⟩
        · rw [hstep, heq]
          exact if_pos h
        · intro x hx
          rcases List.mem_cons.mp hx with rfl | hx
          · exact le_refl _
          · exact le_trans (hmax x hx) h
      · refine ⟨bk, bs, ?_, List.mem_cons_of_mem _ hmem, hscore, ?_⟩
        · rw [hstep, heq]
          exact if_neg h
        · intro x hx
          rcases List.mem_cons.mp hx with rfl | hx
          · exact le_of_lt (not_le.mp h)
          · exact hmax x hx

lemma dictGet?_noTitleFold (ts : List String) (m : List (String × String)) (k : String) :
    dictGet? (ts.foldl noTitleStep m) k
      = ((ts.reverse.filter (fun t => t ≠ "-")).find? (fun t => dKeyOf t = k)).or (dictGet? m k) := by
  induction ts generalizing m with
  | nil => simp
  | cons t rest ih =>
    simp only [List.foldl_cons, List.reverse_cons, List.filter_append, List.find?_append]
    rw [ih, Option.or_assoc]
    congr 1
    by_cases hd : t = "-"
    · simp [noTitleStep, hd]
    · simp only [noTitleStep, if_neg hd, dictGet?_insert]
      by_cases hk : dKeyOf t = k
      · simp [List.find?, hd, hk]
      · have hk' : ¬ (k = dKeyOf t) := fun he => hk he.symm
        simp [List.find?, hd, hk, hk']

lemma dictGet?_preprocess (teachers : List String) (k : String) :
    dictGet? (preprocessTeachersNoTitles teachers) k
      = (((pyUniqueG teachers).reverse.filter (fun t => t ≠ "-")).find? (fun t => dKeyOf t = k)) := by
  unfold preprocessTeachersNoTitles
  rw [dictGet?_noTitleFold]
  simp [dictGet?]

lemma dayDf_timeDf_eq (rows : List Row) (d : String) (t : Time) :
    ((lectureRows rows).filter (fun r => r.day = d)).filter (fun r => r.time = some t)
      = lectureGroup rows d t := by
  unfold lectureRows lectureGroup
  rw [List.filter_filter, List.filter_filter]
  apply List.filter_congr
  intro r _
  by_cases h1 : r.examType = "Lecture" <;> by_cases h2 : r.day = d <;>
    by_cases h3 : r.time = some t <;> simp [h1, h2, h3]

lemma conflictsOf_mem {rows : List Row} {d : String} {t : Time} {cs : List String}
    (h : (d, t, cs) ∈ conflictsOf rows) :
    1 < (lectureGroup rows d t).length ∧ cs = (lectureGroup rows d t).map (fun r => r.course) := by
  unfold conflictsOf at h
  rw [List.mem_flatMap] at h
  obtain ⟨day, _, h⟩ := h
  rw [List.mem_filterMap] at h
  obtain ⟨tOpt, _, hf⟩ := h
  cases tOpt with
  | none => simp at hf
  | some tv =>
    simp only at hf
    split at hf
    · rename_i hlen
      have hinj := Option.some.inj hf
      have hd : day = d := congrArg (fun x => x.1) hinj
      have ht : tv = t := congrArg (fun x => x.2.1) hinj
      have hcs := congrArg (fun x => x.2.2) hinj
      simp only at hd ht hcs
      subst hd
      subst ht
      rw [dayDf_timeDf_eq] at hlen hcs
      exact ⟨hlen, hcs.symm⟩
    · simp at hf

lemma conflictsOf_mem_of_group {rows : List Row} {d : String} {t : Time}
    (h : 1 < (lectureGroup rows d t).length) :
    (d, t, (lectureGroup rows d t).map (fun r => r.course)) ∈ conflictsOf rows := by
  obtain ⟨r, hr⟩ := List.exists_mem_of_length_pos
    (show 0 < (lectureGroup rows d t).length by omega)
  have hr' := hr
  unfold lectureGroup at hr'
  rw [List.mem_filter] at hr'
  obtain ⟨hrmem, hprop⟩ := hr'
  have hprops : r.examType = "Lecture" ∧ r.day = d ∧ r.time = some t := by
    simpa using hprop
  have hrlec : r ∈ lectureRows rows := by
    unfold lectureRows
    rw [List.mem_filter]
    exact ⟨hrmem, by simp [hprops.1]⟩
  unfold conflictsOf
  rw [List.mem_flatMap]
  refine ⟨d, ?_, ?_⟩
  · rw [mem_pyUniqueG, List.mem_map]
    exact ⟨r, hrlec, hprops.2.1⟩
  · rw [List.mem_filterMap]
    refine ⟨some t, ?_, ?_⟩
    · rw [mem_pyUniqueG, List.mem_map]
      refine ⟨r, ?_, hprops.2.2⟩
      rw [List.mem_filter]
      exact ⟨hrlec, by simp [hprops.2.1]⟩
    · simp only
      rw [dayDf_timeDf_eq, if_pos h]

lemma scheduleConflictResp_empty {rows : List Row} (h : conflictsOf rows = []) :
    scheduleConflictResp rows = "No schedule conflicts found." := by
  simp [scheduleConflictResp, h]

/-! Claim C1. -/

/-- C1: the claim states that a turn whose entities supply no value for
course/teacher/day leaves `last_course`/`last_teacher`/`last_day`
unchanged.  Evaluating `_update_context` on an empty-entity turn (every
key present and mapped to `None`, exactly as `extract_entities` produces)
against a context holding previous values shows all three `last_*` fields
cleared to unset: `entities.get(key, previous)` never takes its default
because the key is always present.  The retention default passed to
`dict.get` shows retention was the intent, so this is a bug in the code,
exhibited here. -/
theorem C1_empty_turn_clears_last_fields :
    (updateContext ⟨[], some "CS101", some "Dr. Ali", some "Monday"⟩
        "what about friday" "class_schedule" emptyEntities 0).last_course = none
    ∧ (updateContext ⟨[], some "CS101", some "Dr. Ali", some "Monday"⟩
        "what about friday" "class_schedule" emptyEntities 0).last_teacher = none
    ∧ (updateContext ⟨[], some "CS101", some "Dr. Ali", some "Monday"⟩
        "what about friday" "class_schedule" emptyEntities 0).last_day = none :=
  ⟨rfl, rfl, rfl⟩

/-! Claim C6. -/

/-- C6: after every `_update_context` call the conversation history holds
at most 5 interactions, and a call made while the history already holds 5
evicts exactly the oldest interaction, retaining the 5 most recent in
order. -/
theorem C6_history_bounded_oldest_evicted (ctx : Context) (q i : String) (e : Entities) (now : Nat) :
    (updateContext ctx q i e now).history.length ≤ 5
    ∧ (ctx.history.length = 5 →
        (updateContext ctx q i e now).history = ctx.history.tail ++ [⟨q, i, e, now⟩]) := by
  have hh : (updateContext ctx q i e now).history
      = if (ctx.history ++ [(⟨q, i, e, now⟩ : Interaction)]).length > 5
        then (ctx.history ++ [(⟨q, i, e, now⟩ : Interaction)]).drop
          ((ctx.history ++ [(⟨q, i, e, now⟩ : Interaction)]).length - 5)
        else ctx.history ++ [(⟨q, i, e, now⟩ : Interaction)] := rfl
  constructor
  · rw [hh]
    by_cases h : (ctx.history ++ [(⟨q, i, e, now⟩ : Interaction)]).length > 5
    · rw [if_pos h, List.length_drop]
      omega
    · rw [if_neg h]
      omega
  · intro h5
    have hlen : (ctx.history ++ [(⟨q, i, e, now⟩ : Interaction)]).length = 6 := by
      simp [h5]
    rw [hh, if_pos (by omega), hlen]
    rw [List.drop_append_of_le_length (by omega)]
    norm_num

def ctx5 : Context :=
  ⟨[⟨"q1", "greeting", emptyEntities, 1⟩, ⟨"q2", "greeting", emptyEntities, 2⟩,
    ⟨"q3", "greeting", emptyEntities, 3⟩, ⟨"q4", "greeting", emptyEntities, 4⟩,
    ⟨"q5", "greeting", emptyEntities, 5⟩], none, none, none⟩

/-- Witness for C6 at a concrete 5-interaction history. -/
theorem C6_history_bounded_oldest_evicted_witness :
    (updateContext ctx5 "q6" "thanks" emptyEntities 6).history.length ≤ 5
    ∧ (updateContext ctx5 "q6" "thanks" emptyEntities 6).history
        = ctx5.history.tail ++ [⟨"q6", "thanks", emptyEntities, 6⟩] :=
  ⟨(C6_history_bounded_oldest_evicted ctx5 "q6" "thanks" emptyEntities 6).1,
   (C6_history_bounded_oldest_evicted ctx5 "q6" "thanks" emptyEntities 6).2 rfl⟩

/-! Claim C4. -/

/-- One legitimate strip action: some prefix from the fixed title list
matches at the start of the (remaining) name and exactly that prefix is
removed, the remainder being whitespace-stripped. -/
def StripStep (s t : String) : Prop :=
  ∃ p ∈ titlePrefixes, s.data.take p.data.length = p.data
    ∧ t = pyStrip ⟨s.data.drop p.data.length⟩

lemma stripStep1_reflTrans (acc p : String) (hp : p ∈ titlePrefixes) :
    Relation.ReflTransGen StripStep acc (stripStep1 acc p) := by
  unfold stripStep1
  by_cases h : acc.data.take p.data.length = p.data
  · rw [if_pos h]
    exact Relation.ReflTransGen.single ⟨p, hp, h, rfl⟩
  · rw [if_neg h]

/-- C4 counterexample: on the name `"Prof. Dr. Dr. Ali"` the first (and
only) matching prefix in priority order is `"Prof. Dr."`, so the claim
predicts the result `"Dr. Ali"`; the loop, having no `break`, goes on to
strip `"Dr."` as well and produces `"Ali"`. -/
theorem C4_counterexample_two_prefixes_stripped :
    stripTitles "Prof. Dr. Dr. Ali" = "Ali"
    ∧ ¬ ("Prof. Dr. Dr. Ali".data.take "Doç. Dr.".data.length = "Doç. Dr.".data)
    ∧ ¬ ("Prof. Dr. Dr. Ali".data.take "Öğr. Gör. Dr.".data.length = "Öğr. Gör. Dr.".data)
    ∧ ¬ ("Prof. Dr. Dr. Ali".data.take "Öğr. Gör.".data.length = "Öğr. Gör.".data)
    ∧ "Prof. Dr. Dr. Ali".data.take "Prof. Dr.".data.length = "Prof. Dr.".data
    ∧ pyStrip ⟨"Prof. Dr. Dr. Ali".data.drop "Prof. Dr.".data.length⟩ = "Dr. Ali"
    ∧ "Ali" ≠ "Dr. Ali" := by
  refine ⟨by decide, by decide, by decide, by decide, by decide, by decide, by decide⟩

/-- C4 (amended): the title stripping is a (possibly repeated) sequence of
prefix removals: every step removes a prefix from the fixed priority list
that matches at the start of the remaining name and strips the remainder;
stacked titles may thus each be removed, but no title occurring anywhere
other than as a prefix of the remaining name is ever touched. -/
theorem C4_strip_titles_prefix_steps (t : String) :
    Relation.ReflTransGen StripStep t (stripTitles t) := by
  unfold stripTitles titlePrefixes
  simp only [List.foldl_cons, List.foldl_nil]
  have h1 := stripStep1_reflTrans t "Doç. Dr." (by simp [titlePrefixes])
  have h2 := stripStep1_reflTrans (stripStep1 t "Doç. Dr.") "Öğr. Gör. Dr."
    (by simp [titlePrefixes])
  have h3 := stripStep1_reflTrans (stripStep1 (stripStep1 t "Doç. Dr.") "Öğr. Gör. Dr.")
    "Öğr. Gör." (by simp [titlePrefixes])
  have h4 := stripStep1_reflTrans
    (stripStep1 (stripStep1 (stripStep1 t "Doç. Dr.") "Öğr. Gör. Dr.") "Öğr. Gör.")
    "Prof. Dr." (by simp [titlePrefixes])
  have h5 := stripStep1_reflTrans
    (stripStep1 (stripStep1 (stripStep1 (stripStep1 t "Doç. Dr.") "Öğr. Gör. Dr.") "Öğr. Gör.")
      "Prof. Dr.") "Dr." (by simp [titlePrefixes])
  exact (((h1.trans h2).trans h3).trans h4).trans h5

/-! Claim C3. -/

def c3hist : List Interaction :=
  [⟨"when is CS101", "class_schedule", { emptyEntities with course := some "CS101" }, 0⟩,
   ⟨"who teaches it", "teacher_info", { emptyEntities with teacher := some "Dr. Ali" }, 1⟩]

/-- C3 counterexample: with a follow-up turn resolving neither field and a
history whose newest interaction carries only a teacher while an older one
carries course `"CS101"`, the scan back-fills the teacher and then stops
(`break` ends the whole loop), so the course is NOT back-filled from the
older interaction — the claim predicts `course = some "CS101"`. -/
theorem C3_counterexample_course_not_backfilled :
    (followupStage true emptyEntities c3hist).teacher = some "Dr. Ali"
    ∧ (followupStage true emptyEntities c3hist).course = none
    ∧ (followupStage true emptyEntities c3hist).course ≠ some "CS101" := by
  refine ⟨by decide, by decide, by decide⟩

/-- C3 (amended): when triggered, the history scan back-fills at most one
of the two fields and then stops: at each interaction, newest first,
teacher is tried before course, and the first successful back-fill ends
the scan.  In particular, whenever the newest interaction supplies a
teacher and the current teacher is unset, the result is exactly the input
entities with only the teacher replaced — an unset course is never
back-filled from an older interaction in the same scan. -/
theorem C3_followup_backfills_at_most_one_field :
    (∀ (isF : Bool) (e : Entities) (h : List Interaction),
        (followupStage isF e h).course = e.course ∨ (followupStage isF e h).teacher = e.teacher)
    ∧ (∀ (e : Entities) (h : List Interaction) (i : Interaction),
        ¬ truthyO e.teacher → truthyO i.entities.teacher →
        followupStage true e (h ++ [i]) = { e with teacher := i.entities.teacher }) := by
  constructor
  · intro isF e h
    unfold followupStage
    by_cases hg : (isF : Prop) ∨ ¬ (truthyO e.course ∨ truthyO e.teacher)
    · rw [if_pos hg]
      exact followupScan_single e h.reverse
    · rw [if_neg hg]
      left
      rfl
  · intro e h i hT hiT
    unfold followupStage
    rw [if_pos (Or.inl rfl)]
    rw [List.reverse_append]
    simp only [List.reverse_singleton, List.singleton_append]
    unfold followupScan
    rw [if_pos ⟨hT, hiT⟩]

/-- Witness for C3 (amended), discharging the hypotheses at a concrete
unset-teacher entity record and one-interaction history. -/
theorem C3_followup_backfills_at_most_one_field_witness :
    ((followupStage true emptyEntities c3hist).course = emptyEntities.course
      ∨ (followupStage true emptyEntities c3hist).teacher = emptyEntities.teacher)
    ∧ followupStage true emptyEntities
        ([] ++ [⟨"who teaches it", "teacher_info", { emptyEntities with teacher := some "Dr. Ali" }, 1⟩])
      = { emptyEntities with teacher := some "Dr. Ali" } :=
  ⟨C3_followup_backfills_at_most_one_field.1 true emptyEntities c3hist,
   C3_followup_backfills_at_most_one_field.2 emptyEntities []
     ⟨"who teaches it", "teacher_info", { emptyEntities with teacher := some "Dr. Ali" }, 1⟩
     (by decide) (by decide)⟩

/-! Claim C8. -/

/-- C8 counterexample: the dataset `["Dr. Ali", "Prof. Dr. Ali"]` gives
both teachers the stripped normalized key `"ali"`; the dict write for the
later teacher overwrites the earlier one, so the key built from
`"Dr. Ali"` (which begins with the known prefix `"Dr."`) maps back to
`"Prof. Dr. Ali"`, not to the original name. -/
theorem C8_counterexample_collision :
    "Dr. Ali".data.take "Dr.".data.length = "Dr.".data
    ∧ dKeyOf "Dr. Ali" = "ali"
    ∧ dictGet? (preprocessTeachersNoTitles ["Dr. Ali", "Prof. Dr. Ali"]) (dKeyOf "Dr. Ali")
        = some "Prof. Dr. Ali"
    ∧ (some "Prof. Dr. Ali" : Option String) ≠ some "Dr. Ali" := by
  refine ⟨by decide, by decide, by decide, by decide⟩

/-- C8 (amended): for every teacher name in the dataset (other than the
`'-'` sentinel) that begins with a known title prefix, its stripped,
normalized form is a key of the no-title vocabulary; that key maps back to
some dataset teacher whose stripped normalized form is the same key — the
last such teacher in iteration order — and in particular back to the
original name whenever no other teacher shares the stripped key. -/
theorem C8_no_title_roundtrip (teachers : List String) (t : String)
    (ht : t ∈ teachers) (hd : t ≠ "-")
    (hp : ∃ p ∈ titlePrefixes, t.data.take p.data.length = p.data) :
    ∃ t2, dictGet? (preprocessTeachersNoTitles teachers) (dKeyOf t) = some t2
      ∧ t2 ∈ teachers ∧ t2 ≠ "-" ∧ dKeyOf t2 = dKeyOf t
      ∧ ((∀ u ∈ teachers, u ≠ "-" → dKeyOf u = dKeyOf t → u = t) → t2 = t) := by
  clear hp
  have hmem : t ∈ (pyUniqueG teachers).reverse.filter (fun u => u ≠ "-") := by
    rw [List.mem_filter, List.mem_reverse, mem_pyUniqueG]
    exact ⟨ht, by simp [hd]⟩
  have hsome : (((pyUniqueG teachers).reverse.filter (fun u => u ≠ "-")).find?
      (fun u => dKeyOf u = dKeyOf t)).isSome := by
    rw [List.find?_isSome]
    exact ⟨t, hmem, by simp⟩
  obtain ⟨t2, ht2⟩ := Option.isSome_iff_exists.mp hsome
  have hkey : dKeyOf t2 = dKeyOf t := by
    have := List.find?_some ht2
    simpa using this
  have ht2mem := List.mem_of_find?_eq_some ht2
  rw [List.mem_filter, List.mem_reverse, mem_pyUniqueG] at ht2mem
  have ht2ne : t2 ≠ "-" := by simpa using ht2mem.2
  refine ⟨t2, ?_, ht2mem.1, ht2ne, hkey, ?_⟩
  · rw [dictGet?_preprocess]
    exact ht2
  · intro huniq
    exact huniq t2 ht2mem.1 ht2ne hkey

/-- Witness for C8 (amended) at a concrete one-teacher dataset. -/
theorem C8_no_title_roundtrip_witness :
    ∃ t2, dictGet? (preprocessTeachersNoTitles ["Prof. Dr. Ayşe Kaya"]) (dKeyOf "Prof. Dr. Ayşe Kaya")
        = some t2
      ∧ t2 ∈ ["Prof. Dr. Ayşe Kaya"] ∧ t2 ≠ "-"
      ∧ dKeyOf t2 = dKeyOf "Prof. Dr. Ayşe Kaya"
      ∧ ((∀ u ∈ ["Prof. Dr. Ayşe Kaya"], u ≠ "-"
            → dKeyOf u = dKeyOf "Prof. Dr. Ayşe Kaya" → u = "Prof. Dr. Ayşe Kaya")
          → t2 = "Prof. Dr. Ayşe Kaya") :=
  C8_no_title_roundtrip ["Prof. Dr. Ayşe Kaya"] "Prof. Dr. Ayşe Kaya"
    (by decide) (by decide) ⟨"Prof. Dr.", by decide, by decide⟩

/-! Claim C5. -/

/-- C5: for nonempty text and a nonempty candidate vocabulary,
`fuzzy_match_entity` computes via `process.extractOne` a best-scoring key
(the earliest key attaining the maximal score of the abstract similarity
scorer over all keys) and returns `None` when that best score is strictly
below 70, and the canonical value stored under the best key when the
score is at least 70. -/
theorem C5_fuzzy_threshold (scorer : String → String → Nat) (text : String)
    (candidates : List (String × String)) (h1 : text ≠ "") (h2 : candidates ≠ []) :
    ∃ bk bs, extractOne scorer (normalizeText text) (candidates.map (fun kv => kv.1)) = some (bk, bs)
      ∧ bk ∈ candidates.map (fun kv => kv.1)
      ∧ scorer (normalizeText text) bk = bs
      ∧ (∀ k ∈ candidates.map (fun kv => kv.1), scorer (normalizeText text) k ≤ bs)
      ∧ (bs < 70 → fuzzyMatchEntity scorer text candidates = none)
      ∧ (70 ≤ bs → fuzzyMatchEntity scorer text candidates = dictGet? candidates bk) := by
  have hne : candidates.map (fun kv => kv.1) ≠ [] := by
    intro h0
    exact h2 (List.map_eq_nil_iff.mp h0)
  obtain ⟨bk, bs, heq, hmem, hsc, hmax⟩ := extractOne_max scorer (normalizeText text) _ hne
  refine ⟨bk, bs, heq, hmem, hsc, hmax, ?_, ?_⟩
  · intro hlt
    unfold fuzzyMatchEntity
    rw [if_neg h1, heq]
    simp only
    rw [if_neg (by omega)]
  · intro hge
    unfold fuzzyMatchEntity
    rw [if_neg h1, heq]
    simp only
    rw [if_pos (by omega)]

/-- Witness for C5 at a concrete scorer and one-candidate vocabulary. -/
theorem C5_fuzzy_threshold_witness :
    ∃ bk bs, extractOne (fun _ _ => 90) (normalizeText "cs!") ([("cs101", "CS101")].map (fun kv => kv.1))
        = some (bk, bs)
      ∧ bk ∈ [("cs101", "CS101")].map (fun kv => kv.1)
      ∧ (fun (_ : String) (_ : String) => 90) (normalizeText "cs!") bk = bs
      ∧ (∀ k ∈ [("cs101", "CS101")].map (fun kv => kv.1),
          (fun (_ : String) (_ : String) => 90) (normalizeText "cs!") k ≤ bs)
      ∧ (bs < 70 → fuzzyMatchEntity (fun _ _ => 90) "cs!" [("cs101", "CS101")] = none)
      ∧ (70 ≤ bs → fuzzyMatchEntity (fun _ _ => 90) "cs!" [("cs101", "CS101")]
          = dictGet? [("cs101", "CS101")] bk) :=
  C5_fuzzy_threshold (fun _ _ => 90) "cs!" [("cs101", "CS101")] (by decide) (by decide)

/-! Claim C7. -/

/-- C7: a `class_schedule` query whose entities resolve no course, asked
against an empty context (unset `last_course`), is answered with exactly
the clarification prompt.  (`_update_context` runs first, so the branch
reads the updated context; with the course entity `None` the updated
`last_course` is `None` as well.) -/
theorem C7_class_schedule_clarification (pick : List String → String) (bot : Bot)
    (text : String) (e : Entities) (ctx : Context) (now : Nat)
    (h1 : e.course = none) (h2 : ctx.last_course = none) :
    (generateResponse pick bot "class_schedule" text e ctx now).1
      = "Which course\x27s schedule would you like to know?" := by
  clear h2
  rw [generateResponse_fst, dispatch_class_schedule]
  unfold classScheduleResp
  rw [updateContext_last_course, h1]
  simp [pyOr, truthyO]

/-- Witness for C7 at a concrete empty entity record, empty context and
empty data frame. -/
theorem C7_class_schedule_clarification_witness :
    (generateResponse (fun _ => "") ⟨[], []⟩ "class_schedule" "when is the class"
        emptyEntities ⟨[], none, none, none⟩ 0).1
      = "Which course\x27s schedule would you like to know?" :=
  C7_class_schedule_clarification (fun _ => "") ⟨[], []⟩ "when is the class"
    emptyEntities ⟨[], none, none, none⟩ 0 rfl rfl

/-! Claim C10. -/

lemma pyStrip_examHeader (c : String) :
    pyStrip ("📝 Exam info for " ++ c ++ ":\n") = "📝 Exam info for " ++ c ++ ":" := by
  have hdata : ("📝 Exam info for " ++ c ++ ":\n").data
      = '📝' :: ((" Exam info for ".data ++ c.data) ++ [':', '\n']) := by
    rw [strData_append, strData_append]
    rw [show "📝 Exam info for ".data = '📝' :: " Exam info for ".data from by decide]
    rw [show (":\n" : String).data = [':', '\n'] from by decide]
    simp [List.cons_append, List.append_assoc]
  rw [pyStrip_wrap _ '📝' ':' (" Exam info for ".data ++ c.data) hdata (by decide) (by decide)]
  apply strEq_of_data
  rw [strData_append, strData_append]
  rw [show "📝 Exam info for ".data = '📝' :: " Exam info for ".data from by decide]
  rw [show (":" : String).data = [':'] from by decide]
  simp [List.cons_append, List.append_assoc]

def c10row : Row := ⟨"CS101", "-", "", none, "", "Midterm", none, none⟩

/-- C10 counterexample: with one Midterm row for `"CS101"` whose exam date
is absent, and entities resolving `course = "CS101"` with
`exam_type = "final"`, the rows filtered to the course and the exam
categories are non-empty and all have absent dates — the claim predicts
the bare header — yet the additional `exam_type` narrowing empties the
frame and the code answers the not-found message instead. -/
theorem C10_counterexample_exam_type_narrowing :
    examNarrow [c10row] "CS101" none ≠ []
    ∧ (∀ r ∈ examNarrow [c10row] "CS101" none, r.examDate = none)
    ∧ (generateResponse (fun _ => "") ⟨[c10row], []⟩ "exam_info" "exam?"
        { emptyEntities with course := some "CS101", exam_type := some "final" }
        ⟨[], none, none, none⟩ 0).1
      = "No exam info found for CS101."
    ∧ "No exam info found for CS101." ≠ "📝 Exam info for CS101:" := by
  refine ⟨by decide, by decide, by decide, by decide⟩

/-- C10 (amended): for the `exam_info` intent with a resolved course, if
the rows filtered to that course with Exam Type in {Midterm, Final,
Makeup} — and further narrowed by the `exam_type` entity when one is set —
are non-empty but every such row's Exam Date is absent, the response is
exactly the header `📝 Exam info for {course}:` with no detail lines (and
not the not-found message). -/
theorem C10_exam_header_only (pick : List String → String) (bot : Bot)
    (text : String) (e : Entities) (ctx : Context) (now : Nat) (c : String)
    (hc : e.course = some c) (hcne : c ≠ "")
    (hne : examNarrow bot.df c e.exam_type ≠ [])
    (hdates : ∀ r ∈ examNarrow bot.df c e.exam_type, r.examDate = none) :
    (generateResponse pick bot "exam_info" text e ctx now).1
      = "📝 Exam info for " ++ c ++ ":" := by
  rw [generateResponse_fst, dispatch_exam_info]
  have hcourse : pyOr e.course (updateContext ctx text "exam_info" e now).last_course = some c := by
    rw [hc]
    simp [pyOr, truthyO, hcne]
  simp only [examInfoResp, hcourse, Option.getD_some]
  rw [if_pos (show truthyO (some c) = true by simp [truthyO, hcne])]
  rw [if_pos (show ¬ (examNarrow bot.df c e.exam_type).isEmpty = true by
    simp [List.isEmpty_iff, hne])]
  rw [foldl_examLine_none _ _ hdates]
  exact pyStrip_examHeader c

/-- Witness for C10 (amended) at a concrete one-row frame with no
`exam_type` entity. -/
theorem C10_exam_header_only_witness :
    (generateResponse (fun _ => "") ⟨[c10row], []⟩ "exam_info" "exam?"
        { emptyEntities with course := some "CS101" } ⟨[], none, none, none⟩ 0).1
      = "📝 Exam info for " ++ "CS101" ++ ":" :=
  C10_exam_header_only (fun _ => "") ⟨[c10row], []⟩ "exam?"
    { emptyEntities with course := some "CS101" } ⟨[], none, none, none⟩ 0 "CS101"
    rfl (by decide) (by decide) (by decide)

/-! Claim C2. -/

def c2rows : List Row :=
  [⟨"CS101", "-", "Tuesday", some ⟨10, 0, 0⟩, "201", "Lecture", none, none⟩,
   ⟨"CS101", "-", "Tuesday", some ⟨10, 0, 0⟩, "202", "Lecture", none, none⟩]

/-- C2 counterexample: a data frame whose two Lecture rows share day,
time AND course (only one distinct course overall) is still reported as a
conflict, because the code tests `len(time_df) > 1` — row count, not the
number of distinct courses.  The claim predicts the exact response
`"No schedule conflicts found."` here. -/
theorem C2_counterexample_duplicate_course_reported :
    pyUniqueG ((lectureRows c2rows).map (fun r => r.course)) = ["CS101"]
    ∧ (generateResponse (fun _ => "") ⟨c2rows, []⟩ "schedule_conflict" "any conflicts?"
        emptyEntities ⟨[], none, none, none⟩ 0).1
      = "⚠️ Schedule conflicts:\n- Tuesday at 10:00: CS101, CS101"
    ∧ (generateResponse (fun _ => "") ⟨c2rows, []⟩ "schedule_conflict" "any conflicts?"
        emptyEntities ⟨[], none, none, none⟩ 0).1
      ≠ "No schedule conflicts found." := by
  refine ⟨by decide, by decide, by decide⟩

/-- C2 (amended): `generate_response` for the `schedule_conflict` intent
reports a (day, non-absent time) group of Lecture rows as a conflict if
and only if that group contains more than one ROW (so two rows of the same
course also count); a reported group lists the course names of exactly the
rows in that group (both names when two different-course rows share the
slot); and when no group has more than one row the response is exactly
`"No schedule conflicts found."`. -/
theorem C2_conflicts_by_row_count (rows : List Row) (d : String) (t : Time) :
    ((∃ cs, (d, t, cs) ∈ conflictsOf rows) ↔ 1 < (lectureGroup rows d t).length)
    ∧ (∀ cs, (d, t, cs) ∈ conflictsOf rows → cs = (lectureGroup rows d t).map (fun r => r.course))
    ∧ (∀ (pick : List String → String) (bot : Bot) (text : String) (e : Entities)
        (ctx : Context) (now : Nat),
        bot.df = rows → conflictsOf rows = [] →
        (generateResponse pick bot "schedule_conflict" text e ctx now).1
          = "No schedule conflicts found.") := by
  refine ⟨⟨?_, ?_⟩, ?_, ?_⟩
  · rintro ⟨cs, hcs⟩
    exact (conflictsOf_mem hcs).1
  · intro hlen
    exact ⟨_, conflictsOf_mem_of_group hlen⟩
  · intro cs hcs
    exact (conflictsOf_mem hcs).2
  · intro pick bot text e ctx now hdf hempty
    rw [generateResponse_fst, dispatch_schedule_conflict, hdf]
    exact scheduleConflictResp_empty hempty

/-- Witness for C2 (amended) at an empty data frame and a concrete slot. -/
theorem C2_conflicts_by_row_count_witness :
    ((∃ cs, ("Monday", (⟨9, 0, 0⟩ : Time), cs) ∈ conflictsOf [])
        ↔ 1 < (lectureGroup [] "Monday" ⟨9, 0, 0⟩).length)
    ∧ (∀ cs, ("Monday", (⟨9, 0, 0⟩ : Time), cs) ∈ conflictsOf []
        → cs = (lectureGroup [] "Monday" ⟨9, 0, 0⟩).map (fun r => r.course))
    ∧ (generateResponse (fun _ => "") ⟨[], []⟩ "schedule_conflict" "conflicts?"
        emptyEntities ⟨[], none, none, none⟩ 0).1
      = "No schedule conflicts found." :=
  ⟨(C2_conflicts_by_row_count [] "Monday" ⟨9, 0, 0⟩).1,
   (C2_conflicts_by_row_count [] "Monday" ⟨9, 0, 0⟩).2.1,
   (C2_conflicts_by_row_count [] "Monday" ⟨9, 0, 0⟩).2.2 (fun _ => "") ⟨[], []⟩ "conflicts?"
     emptyEntities ⟨[], none, none, none⟩ 0 rfl rfl⟩

/-! Claim C9. -/

lemma takeWhile_append_dash (ra rb : List Char) (hra : '-' ∉ ra) :
    (ra ++ '-' :: rb).takeWhile (fun c => c ≠ '-') = ra := by
  induction ra with
  | nil => simp [List.takeWhile_cons]
  | cons a ra ih =>
    have ha : a ≠ '-' := fun he => hra (by simp [he])
    have hra' : '-' ∉ ra := fun hm => hra (by simp [hm])
    rw [List.cons_append, List.takeWhile_cons, if_pos (by simp [ha]), ih hra']

lemma replaceDots_dash_split (a b : String) :
    (replaceDots (a ++ "-" ++ b)).data
      = (replaceDots a).data ++ '-' :: (replaceDots b).data := by
  show ((a ++ "-" ++ b).data.map _) = _
  rw [strData_append, strData_append, show ("-" : String).data = ['-'] from by decide]
  simp only [List.map_append, List.map_cons, List.map_nil,
    show (if ('-' : Char) = '.' then ':' else '-') = '-' from by decide,
    List.append_assoc, List.singleton_append]
  rfl

/-- C9: `load_schedule_data` coerces a time-range cell to its start time
(conjunct 1: for any range whose start part carries no `-` of its own,
`clean_time` keeps exactly the stripped, dot-replaced start part); accepts
both `HH:MM:SS` and `HH:MM` formats after replacing dots with colons
(concrete conjuncts, including the range cell `"08:00-10:00"` parsing to
08:00); and maps every value rejected by both formats to absent (`None`)
rather than raising — by construction `cleanTime`/`toTimeObj` are total
functions into `Option`, and the general conjunct plus the concrete
unparseable cells exhibit the `None` outcome. -/
theorem C9_time_cell_cleaning :
    (∀ a b : String, pyStrip (a ++ "-" ++ b) ≠ "" → '-' ∉ (replaceDots a).data →
        cleanTime (a ++ "-" ++ b) = pyStrip (replaceDots a))
    ∧ toTimeObj (cleanTime "08:00-10:00") = some ⟨8, 0, 0⟩
    ∧ toTimeObj (cleanTime "08:00:00") = some ⟨8, 0, 0⟩
    ∧ toTimeObj (cleanTime "08:00") = some ⟨8, 0, 0⟩
    ∧ toTimeObj (cleanTime "08.00") = some ⟨8, 0, 0⟩
    ∧ (∀ s : String, parseHMS s = none → parseHM s = none → toTimeObj s = none)
    ∧ toTimeObj (cleanTime "abc") = none
    ∧ toTimeObj (cleanTime "") = none
    ∧ toTimeObj (cleanTime "25:00") = none := by
  refine ⟨?_, by decide, by decide, by decide, by decide, ?_, by decide, by decide, by decide⟩
  · intro a b hne hnodash
    simp only [cleanTime, if_pos hne]
    rw [if_pos (show '-' ∈ (replaceDots (a ++ "-" ++ b)).data by
      rw [replaceDots_dash_split]
      simp)]
    have htake : (replaceDots (a ++ "-" ++ b)).data.takeWhile (fun c => c ≠ '-')
        = (replaceDots a).data := by
      rw [replaceDots_dash_split]
      exact takeWhile_append_dash _ _ hnodash
    rw [htake]
  · intro s h1 h2
    unfold toTimeObj
    by_cases hs : s = ""
    · rw [if_neg (by simp [hs])]
    · rw [if_pos hs, h1, h2]

/-- Witness for C9, discharging the hypotheses of the general conjuncts at
concrete cells. -/
theorem C9_time_cell_cleaning_witness :
    cleanTime ("08:00" ++ "-" ++ "10:00") = pyStrip (replaceDots "08:00")
    ∧ toTimeObj "zz" = none :=
  ⟨C9_time_cell_cleaning.1 "08:00" "10:00" (by decide) (by decide),
   C9_time_cell_cleaning.2.2.2.2.2.1 "zz" (by decide) (by decide)⟩

end UniChat
